import Mathlib

/-!
Shallow embedding of the LLM orchestration core of `chatapp-v2-express`
(TypeScript/Express). The definitions below are translated from
`src/types/index.ts`, `src/services/llm/index.ts`,
`src/services/llm/openai.ts`, `src/services/llm/anthropic.ts` and the
chunk handling of `src/routes/chat.ts`.

Modelling conventions:
* JavaScript string truthiness is rendered as an explicit emptiness test.
* The vendor network is external to the repository, so each adapter's
  stream is parametrised by the list of vendor-shaped chunks (`net`) the
  vendor connection would deliver; the adapters themselves forward those
  chunks unchanged, which is what the generator bodies do.
* `throw` of the TypeScript code becomes `Except.error` with a structured
  error carrying the same data as the thrown message.
* JavaScript regular-expression global replacement is rendered as a
  left-to-right scan with an explicit fuel argument (the input length,
  which bounds the number of scan steps since every step consumes at
  least one character).
-/

namespace ChatappV2

/-- The `role` union type of `ChatMessage` in `src/types/index.ts`. -/
inductive Role where
  | user
  | assistant
  | system
deriving DecidableEq, Repr

/-- `ChatMessage` of `src/types/index.ts`. -/
structure ChatMessage where
  role : Role
  content : String
deriving DecidableEq, Repr

/-- The `Provider` enum of `src/types/index.ts`. -/
inductive Provider where
  | openai
  | anthropic
deriving DecidableEq, Repr

/-- The string value of each `Provider` enum member. -/
def Provider.name : Provider → String
  | .openai => "openai"
  | .anthropic => "anthropic"

/-- `MODEL_PROVIDER_MAP` of `src/types/index.ts`, in declaration order
(object key insertion order, which `Object.keys` preserves). -/
def MODEL_PROVIDER_MAP : List (String × Provider) :=
  [ ("gpt-4o", Provider.openai),
    ("gpt-4o-mini", Provider.openai),
    ("gpt-4-turbo", Provider.openai),
    ("gpt-4", Provider.openai),
    ("gpt-3.5-turbo", Provider.openai),
    ("claude-3-5-sonnet-20240620", Provider.anthropic),
    ("claude-3-opus-20240229", Provider.anthropic),
    ("claude-3-sonnet-20240229", Provider.anthropic),
    ("claude-3-haiku-20240307", Provider.anthropic) ]

/-- `Object.keys(MODEL_PROVIDER_MAP)`. -/
def knownModels : List String := MODEL_PROVIDER_MAP.map Prod.fst

/-- `CONVERSATION_MESSAGES_THRESHOLD` of `src/types/index.ts`. -/
def CONVERSATION_MESSAGES_THRESHOLD : Nat := 20

/-- The errors thrown by `LLMServiceProvider` in `src/services/llm/index.ts`,
with the data their messages interpolate. -/
inductive LLMError where
  | unsupportedModel (model : String) (known : List String)
  | providerNotInitialized (provider : Provider) (available : List Provider)
  | summarizationProviderNotInitialized
deriving DecidableEq, Repr

/-- The message string each thrown `Error` carries in the source. -/
def LLMError.message : LLMError → String
  | .unsupportedModel model known =>
      "Unsupported model: " ++ model ++ ". Available models: " ++
        String.intercalate ", " known
  | .providerNotInitialized p available =>
      "Provider " ++ p.name ++ " is not initialized. " ++
        "Available providers: " ++
        String.intercalate ", " (available.map Provider.name) ++
        ". Please provide a valid API key for " ++ p.name ++ "."
  | .summarizationProviderNotInitialized =>
      "OpenAI provider is not initialized. Please provide a valid OpenAI API key."

/-- `String.prototype.startsWith`, computed over the character data (the
byte-level core implementation does not reduce in the kernel). -/
def strStartsWith (s pre : String) : Bool :=
  pre.data.isPrefixOf s.data

/-- `LLMServiceProvider.getProviderForModel` (`src/services/llm/index.ts`):
static table lookup, then prefix inference (`gpt-`/`text-` before
`claude-`), then the unsupported-model error. -/
def getProviderForModel (model : String) : Except LLMError Provider :=
  match MODEL_PROVIDER_MAP.lookup model with
  | some p => .ok p
  | none =>
      if strStartsWith model "gpt-" || strStartsWith model "text-" then
        .ok Provider.openai
      else if strStartsWith model "claude-" then
        .ok Provider.anthropic
      else
        .error (LLMError.unsupportedModel model knownModels)

/-- Which adapters the `LLMServiceProvider` constructor managed to build
(`this.providers`): credentials are environment-dependent, so availability
is a parameter of the model. -/
def ProviderState : Type := Provider → Bool

/-- `Object.keys(this.providers).filter(key => this.providers[key] !== undefined)`,
in the insertion order `[openai, anthropic]` of the record literal. -/
def availableProvidersList (st : ProviderState) : List Provider :=
  [Provider.openai, Provider.anthropic].filter st

/-- A vendor stream chunk, covering the two wire shapes the repository
reads plus an unrecognized shape:
* `openai choices` — `{choices: [...]}` where each choice carries its
  `delta.content` (absent content field = `none`);
* `anthropic delta` — an Anthropic event: `none` = no `delta` field,
  `some none` = a `delta` without `text`, `some (some t)` = `delta.text = t`;
* `plain` — an object with neither field (`{}`). -/
inductive Chunk where
  | openai (choices : List (Option String))
  | anthropic (delta : Option (Option String))
  | plain
deriving DecidableEq, Repr

/-- The per-chunk extraction of `router.post` in `src/routes/chat.ts`
(lines 140-151): the `choices[0].delta.content` branch, else the
`delta.text` branch (taken only when `delta.text` is truthy, i.e. a
non-empty string), else the empty string. -/
def extractDelta : Chunk → String
  | Chunk.openai choices =>
      match choices with
      | [] => ""
      | c :: _ => c.getD ""
  | Chunk.anthropic (some (some t)) => if t = "" then "" else t
  | Chunk.anthropic _ => ""
  | Chunk.plain => ""

/-- The chunk accumulation step of `OpenAIService.getFullCompletionFromStream`
(`src/services/llm/openai.ts`): only the `choices` branch is read. -/
def openaiChunkContent : Chunk → String
  | Chunk.openai (c :: _) => c.getD ""
  | _ => ""

/-- The chunk accumulation step of `AnthropicService.getFullCompletionFromStream`
(`src/services/llm/anthropic.ts`): `if (chunk.delta && chunk.delta.text)`. -/
def anthropicChunkContent : Chunk → String
  | Chunk.anthropic (some (some t)) => if t = "" then "" else t
  | _ => ""

/-- `OpenAIService.getFullCompletionFromStream`: drains the stream and
concatenates the contents left to right into `fullContent`. -/
def openaiFullCompletion (net : List Chunk) : String :=
  net.foldl (fun acc c => acc ++ openaiChunkContent c) ""

/-- `AnthropicService.getFullCompletionFromStream`. -/
def anthropicFullCompletion (net : List Chunk) : String :=
  net.foldl (fun acc c => acc ++ anthropicChunkContent c) ""

/-- Shape predicate: a chunk of the OpenAI wire format (has `choices`). -/
def Chunk.isOpenAIShape : Chunk → Bool
  | Chunk.openai _ => true
  | _ => false

/-- Shape predicate: a chunk of the Anthropic wire format. -/
def Chunk.isAnthropicShape : Chunk → Bool
  | Chunk.anthropic _ => true
  | _ => false

/-- The concatenation of the normalized text deltas of a chunk sequence,
accumulated left to right as the route does into `fullContent`. -/
def concatDeltas (net : List Chunk) : String :=
  net.foldl (fun acc c => acc ++ extractDelta c) ""

/-- A value yielded by a JavaScript generator: either a vendor chunk object
or a plain string. `streamChat` yields chunk objects; the spec under
scrutiny says it yields strings, so the common value space makes the two
readings comparable. -/
inductive JSVal where
  | chunk (c : Chunk)
  | str (s : String)
deriving DecidableEq, Repr

/-- `OpenAIService.streamChatCompletion` (`src/services/llm/openai.ts`):
converts the messages, opens the vendor stream and forwards every vendor
chunk unchanged (`yield chunk`). The vendor response is the `net`
parameter; the message list shapes only the request. -/
def openaiStreamChatCompletion (_messages : List ChatMessage)
    (net : List Chunk) : List Chunk :=
  net

/-- `AnthropicService.streamChatCompletion` (`src/services/llm/anthropic.ts`):
likewise forwards every vendor chunk unchanged. -/
def anthropicStreamChatCompletion (_messages : List ChatMessage)
    (net : List Chunk) : List Chunk :=
  net

/-- Dispatch of `provider.streamChatCompletion` on the resolved provider. -/
def streamChatCompletionOf : Provider → List ChatMessage → List Chunk → List Chunk
  | Provider.openai, messages, net => openaiStreamChatCompletion messages net
  | Provider.anthropic, messages, net => anthropicStreamChatCompletion messages net

/-- Dispatch of `provider.getFullCompletionFromStream`. -/
def getFullCompletionFromStreamOf : Provider → List Chunk → String
  | Provider.openai, net => openaiFullCompletion net
  | Provider.anthropic, net => anthropicFullCompletion net

/-- `LLMServiceProvider.streamChat` (`src/services/llm/index.ts`, lines
52-72): resolves the provider, throws when the adapter is missing, and
otherwise `yield*`s the adapter's chunk sequence — the raw vendor chunks,
as generator values. -/
def streamChat (st : ProviderState) (model : String)
    (messages : List ChatMessage) (net : List Chunk) :
    Except LLMError (List JSVal) :=
  match getProviderForModel model with
  | .error e => .error e
  | .ok providerName =>
      if st providerName = false then
        .error (LLMError.providerNotInitialized providerName
          (availableProvidersList st))
      else
        .ok ((streamChatCompletionOf providerName messages net).map JSVal.chunk)

/-- The options record of the source calls (`max_tokens`, `temperature`). -/
structure Options where
  maxTokens : Option Nat
  temperature : Option Rat
deriving DecidableEq, Repr

/-- The absent options value (`options?` with no argument). -/
def Options.none : Options := { maxTokens := Option.none, temperature := Option.none }

/-- `LLMServiceProvider.getChatCompletion` (`src/services/llm/index.ts`,
lines 77-97): same resolution and availability check as `streamChat`,
then delegates to the adapter's `getFullCompletionFromStream`. -/
def getChatCompletion (st : ProviderState) (model : String)
    (_messages : List ChatMessage) (_opts : Options) (net : List Chunk) :
    Except LLMError String :=
  match getProviderForModel model with
  | .error e => .error e
  | .ok providerName =>
      if st providerName = false then
        .error (LLMError.providerNotInitialized providerName
          (availableProvidersList st))
      else
        .ok (getFullCompletionFromStreamOf providerName net)

/-- The route's treatment of one value received from `streamChat`
(`src/routes/chat.ts`): field access on a plain string finds neither
`choices` nor `delta`, so a string value would produce the empty content. -/
def routeExtractVal : JSVal → String
  | JSVal.chunk c => extractDelta c
  | JSVal.str _ => ""

/-- The sequence of `content` values the route writes as SSE events, one
per value received from `streamChat`. -/
def routeContents (vals : List JSVal) : List String :=
  vals.map routeExtractVal

end ChatappV2

namespace ChatappV2

/-- A persisted message row as `getMessageHistory` reads it
(`conversation.messages` via Prisma): `role` is an arbitrary string. -/
structure StoredMessage where
  role : String
  content : String
deriving DecidableEq, Repr

/-- The conversation record as read from the store: its messages in
creation order and its optional `systemPrompt` column. -/
structure Conversation where
  messages : List StoredMessage
  systemPrompt : Option String
deriving DecidableEq, Repr

/-- The filter-and-cast of `getMessageHistory`:
`['user','assistant','system'].includes(msg.role)` then the cast of the
role string to the union type. -/
def parseRole (r : String) : Option Role :=
  if r = "user" then some Role.user
  else if r = "assistant" then some Role.assistant
  else if r = "system" then some Role.system
  else Option.none

/-- The assembled message list of `getMessageHistory` before the threshold
logic: recognized-role messages in order, with the conversation's stored
`systemPrompt` unshifted in front when it is truthy (non-empty). -/
def buildMessages (conv : Conversation) : List ChatMessage :=
  let base := conv.messages.filterMap fun m =>
    (parseRole m.role).map fun r => ChatMessage.mk r m.content
  match conv.systemPrompt with
  | some sp => if sp = "" then base else ChatMessage.mk Role.system sp :: base
  | Option.none => base

/-- The replacement text of the four scrubbing passes of
`briefSummaryOfConversationHistory`. -/
def resourcePlaceholder : List Char := "<resource />".data

/-- Helper for `expectPrefix`-style literal matching: the remainder after
the literal, or `none` when the input does not start with it. -/
def expectPrefix : List Char → List Char → Option (List Char)
  | [], l => some l
  | _ :: _, [] => Option.none
  | p :: ps, c :: cs => if c = p then expectPrefix ps cs else Option.none

/-- Lazy scan of regex fragment `.*?\]\(`: the fewest non-newline
characters up to an adjacent `](`, or `none` (JS `.` never matches a
newline, so a newline kills the match). -/
def findCloseParenOpen : List Char → Option (List Char)
  | ']' :: '(' :: rest => some rest
  | '\n' :: _ => Option.none
  | _ :: rest => findCloseParenOpen rest
  | [] => Option.none

/-- Lazy scan of regex fragment `.*?c` for a single closing character. -/
def findChar (c : Char) : List Char → Option (List Char)
  | x :: rest =>
      if x = c then some rest
      else if x = '\n' then Option.none
      else findChar c rest
  | [] => Option.none

/-- One match attempt of `/!\[.*?\]\(.*?\)/` at the current position. -/
def tryMdImage : List Char → Option (List Char)
  | '!' :: '[' :: rest =>
      match findCloseParenOpen rest with
      | some r => findChar ')' r
      | Option.none => Option.none
  | _ => Option.none

/-- Scan of regex fragment `[^>]*>`: everything up to and including the
first `>` (the character class also matches newlines). -/
def skipToGt : List Char → Option (List Char)
  | '>' :: rest => some rest
  | _ :: rest => skipToGt rest
  | [] => Option.none

/-- One match attempt of `/<img[^>]*>/` at the current position. -/
def tryImgTag : List Char → Option (List Char)
  | '<' :: 'i' :: 'm' :: 'g' :: rest => skipToGt rest
  | _ => Option.none

/-- Scan of regex fragment `[^;]*;` continuing a non-empty `[^;]+`. -/
def scanNonSemi : List Char → Option (List Char)
  | [] => Option.none
  | ';' :: rest => some rest
  | _ :: rest => scanNonSemi rest

/-- Scan of regex fragment `[^;]+;`: at least one non-semicolon character,
then the semicolon. -/
def afterSemi : List Char → Option (List Char)
  | [] => Option.none
  | ';' :: _ => Option.none
  | _ :: rest => scanNonSemi rest

/-- The characters excluded by the final class `[^\"\s]` of the data-URI
regex (the double quote and whitespace; `\s` is modelled by its ASCII
members). -/
def isWsOrQuote (c : Char) : Bool :=
  c = '"' || c = ' ' || c = '\t' || c = '\n' || c = '\r' ||
    c = '\x0b' || c = '\x0c'

/-- Greedy scan of regex fragment `[^\"\s]*` after its first character. -/
def dropRun : List Char → List Char
  | c :: rest => if isWsOrQuote c then c :: rest else dropRun rest
  | [] => []

/-- One match attempt of `/data:image\/[^;]+;base64,[^\"\s]+/` at the
current position. -/
def tryDataImage (l : List Char) : Option (List Char) := do
  let r1 ← expectPrefix ("data:image/".data) l
  let r2 ← afterSemi r1
  let r3 ← expectPrefix ("base64,".data) r2
  match r3 with
  | [] => Option.none
  | c :: rest => if isWsOrQuote c then Option.none else some (dropRun rest)

/-- One match attempt of `/\[attachment:.*?\]/` at the current position. -/
def tryAttachment : List Char → Option (List Char)
  | '[' :: rest =>
      match expectPrefix ("attachment:".data) rest with
      | some r => findChar ']' r
      | Option.none => Option.none
  | _ => Option.none

/-- JavaScript `String.prototype.replace` with a `/g` regex: repeated
leftmost matching, the replacement emitted in place of each match and
scanning resumed after the match. Every scan step consumes at least one
input character, so fuel equal to the input length is enough. -/
def replaceAllAux (tryMatch : List Char → Option (List Char)) :
    Nat → List Char → List Char
  | 0, l => l
  | _ + 1, [] => []
  | fuel + 1, c :: rest =>
      match tryMatch (c :: rest) with
      | some rest' => resourcePlaceholder ++ replaceAllAux tryMatch fuel rest'
      | Option.none => c :: replaceAllAux tryMatch fuel rest

/-- `s.replace(regex, placeholder)` for one of the four scrub regexes. -/
def replaceAll (tryMatch : List Char → Option (List Char)) (s : String) : String :=
  String.mk (replaceAllAux tryMatch s.data.length s.data)

/-- The four replacement passes applied to one content string, in source
order: markdown images, HTML `img` tags, base64 image data URIs, then
bracketed attachment markers. -/
def scrubContent (s : String) : String :=
  replaceAll tryAttachment
    (replaceAll tryDataImage
      (replaceAll tryImgTag
        (replaceAll tryMdImage s)))

/-- The per-message pre-processing of `briefSummaryOfConversationHistory`:
the content is rewritten when it is truthy (non-empty). -/
def scrubMessage (msg : ChatMessage) : ChatMessage :=
  if msg.content = "" then msg
  else { msg with content := scrubContent msg.content }

/-- The string value of a role, as it prints in the serialized transcript. -/
def Role.str : Role → String
  | Role.user => "user"
  | Role.assistant => "assistant"
  | Role.system => "system"

/-- The fixed system instruction of the summarization request. -/
def summarizerSystemMessage : ChatMessage :=
  { role := Role.system,
    content := "You are a helpful assistant that summarizes conversations. " ++
      "Create a concise summary of the following conversation in bullet points. " ++
      "Focus on the main topics, questions, and answers. " ++
      "Be factual and objective. Do not add information not present in the conversation. " ++
      "Format your response as a list of bullet points using the \x27- \x27 prefix." }

/-- The user message content of the summarization request: the fixed
instruction line followed by the role-prefixed transcript of the
scrubbed messages. -/
def summarizationUserContent (messages : List ChatMessage) : String :=
  "Please summarize the following conversation in bullet points:\n\n" ++
    String.intercalate "\n\n"
      ((messages.map scrubMessage).map fun m => m.role.str ++ ": " ++ m.content)

/-- The two messages `briefSummaryOfConversationHistory` transmits to the
summarization model. -/
def summarizationRequestMessages (messages : List ChatMessage) : List ChatMessage :=
  [summarizerSystemMessage,
    { role := Role.user, content := summarizationUserContent messages }]

/-- The options of the summarization call (`max_tokens: 500`,
`temperature: 0.3`, the defaults of the source's parameters). -/
def summarizationOptions : Options :=
  { maxTokens := some 500, temperature := some ((3 : Rat) / 10) }

/-- `LLMServiceProvider.briefSummaryOfConversationHistory`
(`src/services/llm/index.ts`, lines 188-247): throws when the OpenAI
adapter is missing, otherwise sends the scrubbed transcript to the fixed
model `gpt-4o-mini` through `getChatCompletion`. `net` is the vendor
response stream of that summarization call. -/
def briefSummaryOfConversationHistory (st : ProviderState) (net : List Chunk)
    (messages : List ChatMessage) : Except LLMError String :=
  if st Provider.openai = false then
    .error LLMError.summarizationProviderNotInitialized
  else
    getChatCompletion st "gpt-4o-mini" (summarizationRequestMessages messages)
      summarizationOptions net

/-- `LLMServiceProvider.getMessageHistory` (`src/services/llm/index.ts`,
lines 119-183) for a conversation already loaded from the store: the
threshold gate, the `summarize` gate, then the split into recent
(`slice(-THRESHOLD)`) and older (`slice(0, -THRESHOLD)`) messages with
the summarizer's result prepended on success and dropped on failure. -/
def getMessageHistory (st : ProviderState) (net : List Chunk)
    (conv : Conversation) (summarize : Bool) : List ChatMessage :=
  let messages := buildMessages conv
  if messages.length ≤ CONVERSATION_MESSAGES_THRESHOLD then messages
  else if summarize = false then messages
  else
    let recentMessages :=
      messages.drop (messages.length - CONVERSATION_MESSAGES_THRESHOLD)
    let olderMessages :=
      messages.take (messages.length - CONVERSATION_MESSAGES_THRESHOLD)
    if 0 < olderMessages.length then
      match briefSummaryOfConversationHistory st net olderMessages with
      | .ok summary =>
          { role := Role.system,
            content := "Summary of previous conversation: \n" ++ summary } ::
            recentMessages
      | .error _ => recentMessages
    else recentMessages

end ChatappV2

namespace ChatappV2

/-- The `role` values Anthropic's `MessageParam` admits. -/
inductive ARole where
  | user
  | assistant
deriving DecidableEq, Repr

/-- An entry of the `messages` array sent to the Anthropic API. -/
structure AnthropicMessage where
  role : ARole
  content : String
deriving DecidableEq, Repr

/-- `AnthropicService.convertToAnthropicMessages`
(`src/services/llm/anthropic.ts`, lines 76-101): system messages are
filtered out and only user/assistant messages are pushed. -/
def convertToAnthropicMessages (messages : List ChatMessage) : List AnthropicMessage :=
  let nonSystemMessages := messages.filter fun m =>
    match m.role with
    | Role.system => false
    | _ => true
  nonSystemMessages.filterMap fun m =>
    match m.role with
    | Role.user => some (AnthropicMessage.mk ARole.user m.content)
    | Role.assistant => some (AnthropicMessage.mk ARole.assistant m.content)
    | Role.system => Option.none

/-- The `systemPrompt` string `convertToAnthropicMessages` computes from
the system messages — and then never uses. -/
def combinedSystemPrompt (messages : List ChatMessage) : String :=
  let systemMessages := messages.filter fun m =>
    match m.role with
    | Role.system => true
    | _ => false
  if 0 < systemMessages.length then
    String.intercalate "\n\n" (systemMessages.map ChatMessage.content)
  else ""

/-- The request object `AnthropicService.streamChatCompletion` passes to
`this.client.messages.create` (`src/services/llm/anthropic.ts`, lines
27-41): `model`, `messages`, `stream`, `max_tokens`, `temperature` —
these five fields and no `system` field. -/
structure AnthropicRequest where
  model : String
  messages : List AnthropicMessage
  stream : Bool
  maxTokens : Nat
  temperature : Option Rat
deriving DecidableEq, Repr

/-- The construction of that request: `max_tokens: options?.max_tokens || 4096`
(JS `||`, so an explicit 0 also falls back to 4096). -/
def buildAnthropicRequest (model : String) (messages : List ChatMessage)
    (opts : Options) : AnthropicRequest :=
  { model := model,
    messages := convertToAnthropicMessages messages,
    stream := true,
    maxTokens :=
      match opts.maxTokens with
      | some n => if n = 0 then 4096 else n
      | Option.none => 4096,
    temperature := opts.temperature }

/-- The mapping one chat message undergoes on the Anthropic path: user and
assistant messages are kept with their content, system messages vanish.
`convertToAnthropicMessages` is proved equal to `filterMap` of this. -/
def anthropicOfChat (m : ChatMessage) : Option AnthropicMessage :=
  match m.role with
  | Role.user => some (AnthropicMessage.mk ARole.user m.content)
  | Role.assistant => some (AnthropicMessage.mk ARole.assistant m.content)
  | Role.system => Option.none

/-- The filter predicate of `convertToAnthropicMessages`
(`msg.role !== 'system'`). -/
def isNonSystem (m : ChatMessage) : Bool :=
  match m.role with
  | Role.system => false
  | _ => true

/-- Substring scan over character data (used to state that a marker was
removed from a transmitted payload). -/
def infixChars (pat : List Char) : List Char → Bool
  | [] => pat.isEmpty
  | c :: rest => pat.isPrefixOf (c :: rest) || infixChars pat rest

/-- `s` contains `pat` as a contiguous substring. -/
def containsSubstr (s pat : String) : Bool :=
  infixChars pat.data s.data

/-- Fixture: every adapter constructed. -/
def stAll : ProviderState := fun _ => true

/-- Fixture: no adapter constructed (no credentials at process start). -/
def stNone : ProviderState := fun _ => false

/-- Fixture: a one-chunk OpenAI vendor response whose full text is `SUM`. -/
def exNet : List Chunk := [Chunk.openai [some "SUM"]]

/-- Fixture: a one-message conversation with a stored system prompt. -/
def exConvSmall : Conversation :=
  { messages := [StoredMessage.mk "user" "hi"], systemPrompt := some "sp" }

/-- Fixture: twenty persisted user messages and a stored system prompt —
the persisted count sits exactly at the threshold, the assembled list one
above it. -/
def exConv20Prompt : Conversation :=
  { messages := List.replicate 20 (StoredMessage.mk "user" "x"),
    systemPrompt := some "be nice" }

/-- Fixture: twenty-five persisted user messages, no system prompt. -/
def exConv25 : Conversation :=
  { messages := List.replicate 25 (StoredMessage.mk "user" "x"),
    systemPrompt := Option.none }

/-- Fixture: twenty-one persisted user messages, no system prompt. -/
def exConv21 : Conversation :=
  { messages := List.replicate 21 (StoredMessage.mk "user" "x"),
    systemPrompt := Option.none }

end ChatappV2

namespace ChatappV2

/-- A `filterMap` whose function succeeds on every element keeps the length. -/
theorem length_filterMap_of_isSome {α β : Type} (f : α → Option β) :
    ∀ l : List α, (∀ a ∈ l, (f a).isSome = true) →
      (l.filterMap f).length = l.length := by
  intro l
  induction l with
  | nil => intro _; rfl
  | cons a rest ih =>
      intro h
      have ha : (f a).isSome = true := h a (by simp)
      rcases Option.isSome_iff_exists.mp ha with ⟨b, hb⟩
      simp only [List.filterMap_cons, hb, List.length_cons]
      rw [ih fun x hx => h x (by simp [hx])]

/-- Two left folds that append pointwise-equal contributions agree. -/
theorem foldl_append_congr (f g : Chunk → String) :
    ∀ (l : List Chunk) (a : String), (∀ c ∈ l, f c = g c) →
      l.foldl (fun acc c => acc ++ f c) a = l.foldl (fun acc c => acc ++ g c) a := by
  intro l
  induction l with
  | nil => intro a _; rfl
  | cons c rest ih =>
      intro a h
      simp only [List.foldl_cons]
      rw [h c (by simp)]
      exact ih _ fun x hx => h x (by simp [hx])

/-- C1: resolveProvider (getProviderForModel): every model in the static
table resolves to its mapped provider; a model absent from the table but
starting with `gpt-` or `text-` resolves to OpenAI and one starting with
`claude-` to Anthropic; any other identifier fails with the
unsupported-model error carrying the unknown model name and the full list
of known models — never a silent default. -/
theorem c1_getProviderForModel_resolution :
    (∀ model p, MODEL_PROVIDER_MAP.lookup model = some p →
      getProviderForModel model = .ok p) ∧
    (∀ model, MODEL_PROVIDER_MAP.lookup model = Option.none →
      (strStartsWith model "gpt-" = true ∨ strStartsWith model "text-" = true) →
      getProviderForModel model = .ok Provider.openai) ∧
    (∀ model, MODEL_PROVIDER_MAP.lookup model = Option.none →
      strStartsWith model "claude-" = true →
      getProviderForModel model = .ok Provider.openai ∨
        getProviderForModel model = .ok Provider.anthropic) ∧
    (∀ model, MODEL_PROVIDER_MAP.lookup model = Option.none →
      strStartsWith model "gpt-" = false → strStartsWith model "text-" = false →
      strStartsWith model "claude-" = true →
      getProviderForModel model = .ok Provider.anthropic) ∧
    (∀ model, MODEL_PROVIDER_MAP.lookup model = Option.none →
      strStartsWith model "gpt-" = false → strStartsWith model "text-" = false →
      strStartsWith model "claude-" = false →
      getProviderForModel model =
        .error (LLMError.unsupportedModel model knownModels)) := by
  refine ⟨?_, ?_, ?_, ?_, ?_⟩
  · intro model p h
    unfold getProviderForModel
    rw [h]
  · intro model h hp
    unfold getProviderForModel
    rw [h]
    rcases hp with hp | hp <;> simp [hp]
  · intro model h hc
    unfold getProviderForModel
    rw [h]
    by_cases h1 : strStartsWith model "gpt-" = true
    · left; simp [h1]
    · by_cases h2 : strStartsWith model "text-" = true
      · left; simp [h2]
      · right
        simp at h1 h2
        simp [h1, h2, hc]
  · intro model h h1 h2 h3
    unfold getProviderForModel
    rw [h]
    simp [h1, h2, h3]
  · intro model h h1 h2 h3
    unfold getProviderForModel
    rw [h]
    simp [h1, h2, h3]

/-- Witness for C1: each branch of the resolution at a concrete model. -/
theorem c1_witness :
    getProviderForModel "gpt-4o" = .ok Provider.openai ∧
    getProviderForModel "gpt-5-nano" = .ok Provider.openai ∧
    getProviderForModel "text-davinci-003" = .ok Provider.openai ∧
    getProviderForModel "claude-next" = .ok Provider.anthropic ∧
    getProviderForModel "mistral-7b" =
      .error (LLMError.unsupportedModel "mistral-7b" knownModels) :=
  ⟨c1_getProviderForModel_resolution.1 "gpt-4o" Provider.openai (by rfl),
   c1_getProviderForModel_resolution.2.1 "gpt-5-nano" (by rfl) (Or.inl (by rfl)),
   c1_getProviderForModel_resolution.2.1 "text-davinci-003" (by rfl) (Or.inr (by rfl)),
   c1_getProviderForModel_resolution.2.2.2.1 "claude-next" (by rfl) (by rfl)
     (by rfl) (by rfl),
   c1_getProviderForModel_resolution.2.2.2.2 "mistral-7b" (by rfl) (by rfl)
     (by rfl) (by rfl)⟩

/-- C6: chunk normalization (the route's per-chunk extraction) is total
over chunk shapes: the `choices[0].delta.content` shape yields its
content, the `delta.text` shape yields its text, and unrecognized or
empty shapes — `{}`, empty `choices`, a choice without content, a `delta`
without text — yield the empty string, so no chunk shape can fail
normalization. -/
theorem c6_extractDelta_total :
    (∀ c : String, extractDelta (Chunk.openai [some c]) = c) ∧
    extractDelta (Chunk.openai [some "hi"]) = "hi" ∧
    (∀ t : String, extractDelta (Chunk.anthropic (some (some t))) = t) ∧
    extractDelta (Chunk.anthropic (some (some "yo"))) = "yo" ∧
    extractDelta Chunk.plain = "" ∧
    extractDelta (Chunk.openai []) = "" ∧
    (∀ choices, extractDelta (Chunk.openai (Option.none :: choices)) = "") ∧
    extractDelta (Chunk.anthropic Option.none) = "" ∧
    extractDelta (Chunk.anthropic (some Option.none)) = "" := by
  refine ⟨fun c => rfl, rfl, fun t => ?_, rfl, rfl, rfl, fun _ => rfl, rfl, rfl⟩
  by_cases h : t = "" <;> simp [extractDelta, h]

/-- C9: with a model that resolves to no provider, or one whose resolved
adapter was not constructed, both `streamChat` and `getChatCompletion`
fail with the corresponding structured error (the unsupported-model error,
or the provider-not-initialized error naming the provider and the list of
available providers) and yield no chunks and no text. -/
theorem c9_fail_fast (st : ProviderState) (model : String)
    (messages : List ChatMessage) (opts : Options) (net : List Chunk) :
    (∀ e, getProviderForModel model = .error e →
      streamChat st model messages net = .error e ∧
      getChatCompletion st model messages opts net = .error e) ∧
    (∀ p, getProviderForModel model = .ok p → st p = false →
      streamChat st model messages net =
        .error (LLMError.providerNotInitialized p (availableProvidersList st)) ∧
      getChatCompletion st model messages opts net =
        .error (LLMError.providerNotInitialized p (availableProvidersList st))) := by
  constructor
  · intro e he
    unfold streamChat getChatCompletion
    rw [he]
    exact ⟨rfl, rfl⟩
  · intro p hp hst
    unfold streamChat getChatCompletion
    rw [hp]
    simp [hst]

/-- Witness for C9: the unknown model `mistral-7b`, and `gpt-4o` against a
process where no adapter was constructed. -/
theorem c9_witness :
    streamChat stNone "mistral-7b" [] [] =
      .error (LLMError.unsupportedModel "mistral-7b" knownModels) ∧
    getChatCompletion stNone "mistral-7b" [] Options.none [] =
      .error (LLMError.unsupportedModel "mistral-7b" knownModels) ∧
    streamChat stNone "gpt-4o" [] [] =
      .error (LLMError.providerNotInitialized Provider.openai []) ∧
    getChatCompletion stNone "gpt-4o" [] Options.none [] =
      .error (LLMError.providerNotInitialized Provider.openai []) := by
  have h1 := (c9_fail_fast stNone "mistral-7b" [] Options.none []).1
    (LLMError.unsupportedModel "mistral-7b" knownModels) (by rfl)
  have h2 := (c9_fail_fast stNone "gpt-4o" [] Options.none []).2
    Provider.openai (by rfl) (by rfl)
  have hav : availableProvidersList stNone = [] := by rfl
  rw [hav] at h2
  exact ⟨h1.1, h1.2, h2.1, h2.2⟩

/-- Counterexample to C2 as stated: a conversation whose persisted message
count is exactly the threshold (20) but which also has a stored system
prompt. The assembled list is then 21 long, so `getMessageHistory` with
`summarize = true` summarizes the prompt away instead of returning the
assembled sequence verbatim. -/
theorem c2_counterexample :
    exConv20Prompt.messages.length ≤ CONVERSATION_MESSAGES_THRESHOLD ∧
    getMessageHistory stAll exNet exConv20Prompt true ≠
      buildMessages exConv20Prompt := by
  decide

/-- C2 as amended: the threshold gate compares the length of the assembled
list — the recognized-role messages with the stored system prompt
prepended — not the persisted message count. Whenever that assembled list
is at most 20 long, `getMessageHistory` returns it verbatim for both
values of `summarize`. -/
theorem c2_below_threshold_verbatim (st : ProviderState) (net : List Chunk)
    (conv : Conversation) (summarize : Bool)
    (hlen : (buildMessages conv).length ≤ CONVERSATION_MESSAGES_THRESHOLD) :
    getMessageHistory st net conv summarize = buildMessages conv := by
  unfold getMessageHistory
  simp [hlen]

/-- Witness for C2 (amended): a one-message conversation with a prompt,
returned verbatim under `summarize = true`. -/
theorem c2_witness :
    (buildMessages exConvSmall).length ≤ CONVERSATION_MESSAGES_THRESHOLD ∧
    getMessageHistory stAll exNet exConvSmall true = buildMessages exConvSmall :=
  ⟨by decide, c2_below_threshold_verbatim stAll exNet exConvSmall true (by decide)⟩

/-- C3: for a conversation of 25 recognized-role messages and no stored
system prompt, `summarize = false` returns all 25 messages untruncated;
`summarize = true` splits off the last 20 as recent, hands the 5 older
ones to the summarizer, and returns exactly one summary system message
followed by the last 20. -/
theorem c3_over_threshold_summarization (st : ProviderState) (net : List Chunk)
    (conv : Conversation) (s : String)
    (hsp : conv.systemPrompt = Option.none)
    (hroles : ∀ m ∈ conv.messages, (parseRole m.role).isSome = true)
    (hlen : conv.messages.length = 25)
    (hsum : briefSummaryOfConversationHistory st net ((buildMessages conv).take 5) =
      .ok s) :
    (buildMessages conv).length = 25 ∧
    getMessageHistory st net conv false = buildMessages conv ∧
    getMessageHistory st net conv true =
      ChatMessage.mk Role.system ("Summary of previous conversation: \n" ++ s) ::
        (buildMessages conv).drop 5 ∧
    ((buildMessages conv).drop 5).length = 20 := by
  have hb : (buildMessages conv).length = 25 := by
    unfold buildMessages
    rw [hsp]
    rw [length_filterMap_of_isSome _ _ ?_]
    · exact hlen
    · intro m hm
      simpa using hroles m hm
  refine ⟨hb, ?_, ?_, ?_⟩
  · simp [getMessageHistory, hb, CONVERSATION_MESSAGES_THRESHOLD]
  · simp [getMessageHistory, hb, CONVERSATION_MESSAGES_THRESHOLD, hsum]
  · rw [List.length_drop, hb]

/-- Witness for C3: 25 identical user messages, all adapters available,
a one-chunk summarization response with text `SUM`. -/
theorem c3_witness :
    exConv25.systemPrompt = Option.none ∧
    exConv25.messages.length = 25 ∧
    briefSummaryOfConversationHistory stAll exNet
      ((buildMessages exConv25).take 5) = .ok "SUM" ∧
    getMessageHistory stAll exNet exConv25 false = buildMessages exConv25 ∧
    getMessageHistory stAll exNet exConv25 true =
      ChatMessage.mk Role.system ("Summary of previous conversation: \nSUM") ::
        (buildMessages exConv25).drop 5 :=
  ⟨rfl, by decide, by rfl,
    (c3_over_threshold_summarization stAll exNet exConv25 "SUM" rfl
      (by decide) (by decide) (by rfl)).2.1,
    (c3_over_threshold_summarization stAll exNet exConv25 "SUM" rfl
      (by decide) (by decide) (by rfl)).2.2.1⟩

/-- C7: above the threshold with `summarize = true`, when the fixed
summarization provider (OpenAI) was never initialized the summarizer
fails and `getMessageHistory` returns exactly the last 20 assembled
messages — no summary message, no error surfaced (the function returns a
plain message list). -/
theorem c7_summarizer_failure_degrades (st : ProviderState) (net : List Chunk)
    (conv : Conversation)
    (hst : st Provider.openai = false)
    (hlen : CONVERSATION_MESSAGES_THRESHOLD < (buildMessages conv).length) :
    getMessageHistory st net conv true =
      (buildMessages conv).drop
        ((buildMessages conv).length - CONVERSATION_MESSAGES_THRESHOLD) ∧
    ((buildMessages conv).drop
        ((buildMessages conv).length - CONVERSATION_MESSAGES_THRESHOLD)).length =
      CONVERSATION_MESSAGES_THRESHOLD := by
  have hnot : ¬ (buildMessages conv).length ≤ CONVERSATION_MESSAGES_THRESHOLD :=
    Nat.not_le_of_lt hlen
  constructor
  · unfold getMessageHistory
    simp only [briefSummaryOfConversationHistory, hst]
    simp [hnot, Nat.sub_pos_of_lt hlen, List.length_take,
      Nat.le_of_lt hlen]
  · rw [List.length_drop]
    omega

/-- Witness for C7: 21 user messages, no adapter constructed. -/
theorem c7_witness :
    stNone Provider.openai = false ∧
    CONVERSATION_MESSAGES_THRESHOLD < (buildMessages exConv21).length ∧
    getMessageHistory stNone [] exConv21 true =
      (buildMessages exConv21).drop 1 ∧
    ((buildMessages exConv21).drop 1).length = 20 := by
  have h := c7_summarizer_failure_degrades stNone [] exConv21 (by rfl) (by decide)
  have hd : (buildMessages exConv21).length - CONVERSATION_MESSAGES_THRESHOLD = 1 := by
    decide
  rw [hd] at h
  exact ⟨rfl, by decide, h.1, h.2⟩

/-- Counterexample to C4 as stated: with every adapter available and a
one-chunk vendor stream, the element `streamChat` yields is the raw
vendor chunk object, not the normalized plain-text delta the Chunk
Normalizer would extract from it. -/
theorem c4_counterexample :
    streamChat stAll "gpt-4o" [] [Chunk.openai [some "hi"]] =
      .ok [JSVal.chunk (Chunk.openai [some "hi"])] ∧
    JSVal.chunk (Chunk.openai [some "hi"]) ≠
      JSVal.str (extractDelta (Chunk.openai [some "hi"])) :=
  ⟨by rfl, by decide⟩

/-- C4 as amended: `streamChat` yields the vendor chunks unchanged (raw,
vendor-shaped); normalization is applied by the caller — the chat route —
which maps the per-chunk extraction over the received values before
forwarding plain text to the client. -/
theorem c4_stream_yields_raw_chunks (st : ProviderState) (model : String)
    (messages : List ChatMessage) (net : List Chunk) (p : Provider)
    (hres : getProviderForModel model = .ok p) (hav : st p = true) :
    streamChat st model messages net = .ok (net.map JSVal.chunk) ∧
    routeContents (net.map JSVal.chunk) = net.map extractDelta := by
  constructor
  · unfold streamChat
    rw [hres]
    cases p <;>
      simp [hav, streamChatCompletionOf, openaiStreamChatCompletion,
        anthropicStreamChatCompletion]
  · simp [routeContents, routeExtractVal]

/-- Witness for C4 (amended): `gpt-4o` with all adapters available and a
two-chunk vendor stream. -/
theorem c4_witness :
    getProviderForModel "gpt-4o" = .ok Provider.openai ∧
    stAll Provider.openai = true ∧
    streamChat stAll "gpt-4o" [] [Chunk.openai [some "a"], Chunk.plain] =
      .ok [JSVal.chunk (Chunk.openai [some "a"]), JSVal.chunk Chunk.plain] ∧
    routeContents [JSVal.chunk (Chunk.openai [some "a"]), JSVal.chunk Chunk.plain] =
      ["a", ""] :=
  ⟨by rfl, rfl,
    (c4_stream_yields_raw_chunks stAll "gpt-4o" []
      [Chunk.openai [some "a"], Chunk.plain] Provider.openai (by rfl) rfl).1,
    by decide⟩

/-- C5: over each vendor's own wire shapes, concatenating the normalized
deltas of the chunk sequence of `streamChatCompletion` equals the string
`getFullCompletionFromStream` computes from the same stream, for both the
OpenAI and the Anthropic adapter. -/
theorem c5_streaming_nonstreaming_equivalence :
    (∀ net : List Chunk, (∀ c ∈ net, c.isOpenAIShape = true) →
      concatDeltas net = openaiFullCompletion net) ∧
    (∀ net : List Chunk, (∀ c ∈ net, c.isAnthropicShape = true) →
      concatDeltas net = anthropicFullCompletion net) := by
  constructor
  · intro net h
    unfold concatDeltas openaiFullCompletion
    apply foldl_append_congr
    intro c hc
    have hs := h c hc
    cases c with
    | openai choices => cases choices <;> rfl
    | anthropic d => simp [Chunk.isOpenAIShape] at hs
    | plain => simp [Chunk.isOpenAIShape] at hs
  · intro net h
    unfold concatDeltas anthropicFullCompletion
    apply foldl_append_congr
    intro c hc
    have hs := h c hc
    cases c with
    | openai choices => simp [Chunk.isAnthropicShape] at hs
    | anthropic d =>
        match d with
        | Option.none => rfl
        | some Option.none => rfl
        | some (some t) => rfl
    | plain => simp [Chunk.isAnthropicShape] at hs

/-- Witness for C5: a concrete OpenAI-shaped stream (content, empty
choices, missing content) and a concrete Anthropic-shaped stream (text,
no delta, delta without text). -/
theorem c5_witness :
    concatDeltas [Chunk.openai [some "he"], Chunk.openai [], Chunk.openai [Option.none]] =
      openaiFullCompletion
        [Chunk.openai [some "he"], Chunk.openai [], Chunk.openai [Option.none]] ∧
    concatDeltas
        [Chunk.anthropic (some (some "yo")), Chunk.anthropic Option.none,
          Chunk.anthropic (some Option.none)] =
      anthropicFullCompletion
        [Chunk.anthropic (some (some "yo")), Chunk.anthropic Option.none,
          Chunk.anthropic (some Option.none)] :=
  ⟨c5_streaming_nonstreaming_equivalence.1 _ (by decide),
   c5_streaming_nonstreaming_equivalence.2 _ (by decide)⟩

/-- `convertToAnthropicMessages` is the per-message drop-system mapping. -/
theorem convertToAnthropicMessages_eq_filterMap :
    ∀ messages, convertToAnthropicMessages messages = messages.filterMap anthropicOfChat := by
  intro messages
  induction messages with
  | nil => rfl
  | cons m rest ih =>
      unfold convertToAnthropicMessages at ih ⊢
      cases hr : m.role <;>
        simp only [List.filter_cons, List.filterMap_cons, hr, anthropicOfChat] <;>
        simp [ih, hr, anthropicOfChat]

/-- Removing the system messages first changes nothing about the
drop-system mapping. -/
theorem filterMap_anthropicOfChat_filter :
    ∀ messages : List ChatMessage,
      (messages.filter isNonSystem).filterMap anthropicOfChat =
        messages.filterMap anthropicOfChat := by
  intro messages
  induction messages with
  | nil => rfl
  | cons m rest ih =>
      cases hr : m.role <;>
        simp [List.filter_cons, List.filterMap_cons, isNonSystem, hr,
          anthropicOfChat, ih]

/-- C10 (implicit): the request the Anthropic adapter sends carries only
the user- and assistant-role messages (each with its content, in order);
system-role messages are filtered out first, and since the request record
has no `system` field the combined system prompt computed from them never
reaches the vendor — the whole request is invariant under deleting every
system-role message. -/
theorem c10_anthropic_system_dropped :
    (∀ model messages opts,
      (buildAnthropicRequest model messages opts).messages =
        messages.filterMap anthropicOfChat) ∧
    (∀ model messages opts,
      buildAnthropicRequest model (messages.filter isNonSystem) opts =
        buildAnthropicRequest model messages opts) := by
  constructor
  · intro model messages opts
    simp [buildAnthropicRequest, convertToAnthropicMessages_eq_filterMap]
  · intro model messages opts
    simp [buildAnthropicRequest, convertToAnthropicMessages_eq_filterMap,
      filterMap_anthropicOfChat_filter]

/-- The scrubbed message keeps its role and carries the scrubbed content. -/
theorem scrubMessage_eq (m : ChatMessage) :
    scrubMessage m = ChatMessage.mk m.role (scrubContent m.content) := by
  cases m with
  | mk r c =>
      by_cases h : c = ""
      · subst h; rfl
      · unfold scrubMessage
        simp [h]

/-- C8: every message handed to the summarizer has its content passed
through the four scrubbing passes — markdown images, HTML `img` tags,
base64 image data URIs, bracketed attachment markers, each replaced by
the placeholder `<resource />` — before the serialized transcript is
built; in particular a content containing `![alt](http://x/y.png)` has
that substring gone from the transmitted user message, which carries the
placeholder instead. -/
theorem c8_scrub_before_transmission :
    (∀ messages : List ChatMessage,
      summarizationUserContent messages =
        "Please summarize the following conversation in bullet points:\n\n" ++
          String.intercalate "\n\n"
            (messages.map fun m => m.role.str ++ ": " ++ scrubContent m.content)) ∧
    scrubContent "see ![alt](http://x/y.png) ok" = "see <resource /> ok" ∧
    containsSubstr
      (summarizationUserContent [ChatMessage.mk Role.user "see ![alt](http://x/y.png) ok"])
      "![alt](http://x/y.png)" = false ∧
    containsSubstr
      (summarizationUserContent [ChatMessage.mk Role.user "see ![alt](http://x/y.png) ok"])
      "<resource />" = true ∧
    scrubContent "a ![x](u) b ![y](v)" = "a <resource /> b <resource />" ∧
    scrubContent "an <img src=http://a/b.png> tag" = "an <resource /> tag" ∧
    scrubContent "data:image/png;base64,iVBORw0KGgo= end" = "<resource /> end" ∧
    scrubContent "open [attachment:report.pdf] now" = "open <resource /> now" := by
  refine ⟨?_, by rfl, by rfl, by rfl, by rfl, by rfl, by rfl, by rfl⟩
  intro messages
  unfold summarizationUserContent
  rw [List.map_map]
  congr 2
  apply List.map_congr_left
  intro m _
  rw [Function.comp_apply, scrubMessage_eq]

end ChatappV2
